import Mathlib

/-!
Shallow embedding of the reconciliation pipeline in
`src/Script_FTP_Integracao.py` (functions `formatar_cpf`,
`find_motorista`, `process_and_insert_data`).

Modelling conventions:
* Python strings are Lean `String`s; all manipulation is done on the
  underlying `List Char`, with `pyStripL` / `pyUpperL` / `pySplit` /
  `pyIsDigitL` / `pyToInt` embedding the Python primitives `str.strip`,
  `str.upper`, `str.split`, `str.isdigit` and `int(...)` (ASCII model, as
  the extract is ASCII/Latin; the Python underscore digit-grouping in
  `int(...)` is not modelled, no claim depends on it).
* The relational store is an explicit record of four tables (lists of
  rows, in fetch order); a `SELECT ... fetchone` is `List.head?` of the
  filtered table, `fetchall` is the filtered table itself.
* The per-line `BEGIN ... COMMIT / ROLLBACK` block is embedded as a
  function building an updated store from the incoming one; an exception
  raised by one of the four write steps is injected through a `Faults`
  record, and on any such exception the working store is discarded and
  the incoming store returned unchanged (the `ROLLBACK;` branch).
-/

namespace Integracao

/-- Python `str.strip()` on the character list: drop leading and trailing
whitespace. -/
def pyStripL (l : List Char) : List Char :=
  ((l.dropWhile Char.isWhitespace).reverse.dropWhile Char.isWhitespace).reverse

/-- Python `str.strip()` on strings. -/
def pyStrip (s : String) : String :=
  String.mk (pyStripL s.data)

/-- Python `str.upper()` (ASCII model). -/
def pyUpperL (l : List Char) : List Char :=
  l.map Char.toUpper

/-- Python `str.upper()` on strings. -/
def pyUpper (s : String) : String :=
  String.mk (pyUpperL s.data)

/-- Python `str.isdigit()` (ASCII model): nonempty and all characters are
decimal digits. -/
def pyIsDigitL (l : List Char) : Bool :=
  !l.isEmpty && l.all Char.isDigit

/-- Decimal value of a digit string. -/
def digitsToNat (l : List Char) : Nat :=
  l.foldl (fun a c => a * 10 + (c.toNat - 48)) 0

/-- Python `int(s)`: optional surrounding whitespace, optional sign, at
least one digit; `none` models a raised `ValueError`. -/
def pyToInt (s : String) : Option Int :=
  match pyStripL s.data with
  | '-' :: rest => if pyIsDigitL rest then some (-(digitsToNat rest : Int)) else none
  | '+' :: rest => if pyIsDigitL rest then some ((digitsToNat rest : Int)) else none
  | l => if pyIsDigitL l then some ((digitsToNat l : Int)) else none

/-- Python `s.split(sep)` for a one-character separator: always returns at
least one (possibly empty) field. -/
def pySplit (sep : Char) (l : List Char) : List (List Char) :=
  l.foldr
    (fun c acc =>
      match acc with
      | cur :: rs => if c = sep then [] :: cur :: rs else (c :: cur) :: rs
      | [] => [[c]])
    [[]]

/-- The `f"{cpf[:3]}.{cpf[3:6]}.{cpf[6:9]}-{cpf[9:]}"` slicing of
`formatar_cpf` (source lines 37-38). -/
def cpfFormat (d : List Char) : List Char :=
  d.take 3 ++ '.' :: ((d.drop 3).take 3 ++ '.' :: ((d.drop 6).take 3 ++ '-' :: d.drop 9))

/-- Embeds `formatar_cpf` (source lines 32-39): blank input is rejected,
non-digits are stripped, and the canonical `DDD.DDD.DDD-DD` form is
produced exactly when 11 digits remain. -/
def formatar_cpf (cpf : String) : Option String :=
  if cpf.data = [] ∨ pyStripL cpf.data = [] then none
  else if (cpf.data.filter Char.isDigit).length = 11 then
    some (String.mk (cpfFormat (cpf.data.filter Char.isDigit)))
  else none

/-- A row of the `motorista` table (driver identity). Field order follows
the INSERT at source lines 240-247. -/
structure Motorista where
  mot_id : Nat
  cli_id : Nat
  mot_nom : String
  mot_tel : Option String
  mot_cnh : Option String
  mot_cpf : Option String
  mot_rua : Option String
  mot_num : Option String
  mot_bai : Option String
  mot_cid : Option String
  mot_uf : Option String
  mot_mat : Option String
deriving DecidableEq, Repr

/-- SQL `LIKE pat ++ [percent]` on uppercased names: prefix test. -/
def likeStarts (pat l : List Char) : Bool :=
  pat.isPrefixOf l

/-- SQL `LIKE [percent] ++ pat ++ [percent]` on uppercased names:
substring test. -/
def likeContains (pat l : List Char) : Bool :=
  l.tails.any (fun t => pat.isPrefixOf t)

/-- Embeds `find_motorista` (source lines 127-156). The table is the
`motorista` relation in fetch order; `fetchone` is `head?` of the filtered
rows and `fetchall` the filtered rows themselves. Tier 1 (CPF equality,
`fetchone`), tier 2 (exact uppercased-name equality, `fetchone`), tier 3
(prefix-or-substring `LIKE`, `fetchall`, returned only when the candidate
set is a single row; several candidates only log a warning). -/
def find_motorista (table : List Motorista) (mot_nom : String)
    (mot_cpf : Option String) : Option Nat :=
  let byCpf : Option Motorista :=
    match mot_cpf with
    | some c => (table.filter (fun m => decide (m.mot_cpf = some c))).head?
    | none => none
  match byCpf with
  | some m => some m.mot_id
  | none =>
    let clean := pyUpperL (pyStripL mot_nom.data)
    match (table.filter (fun m => decide (pyUpperL m.mot_nom.data = clean))).head? with
    | some m => some m.mot_id
    | none =>
      let results := table.filter
        (fun m => likeStarts clean (pyUpperL m.mot_nom.data)
          || likeContains clean (pyUpperL m.mot_nom.data))
      if results.length = 1 then results.head?.map Motorista.mot_id else none

/-- A row of `grid_ext` (fields touched by the UPDATE at lines 251-258). -/
structure GridExtRow where
  vei_id : Int
  placa_car : String
  mot_nom : String
  mot_id : Option Nat
deriving DecidableEq, Repr

/-- A row of `cad_veiculo` (fields touched by the UPDATE at lines 264-271). -/
structure CadVeiculoRow where
  vei_id : Int
  vei_plc : String
deriving DecidableEq, Repr

/-- A row of `last_datastore` (the watermark touched at lines 274-281). -/
structure LastRow where
  vei_id : Int
deriving DecidableEq, Repr

/-- The persistent store: the four tables the pipeline writes, in fetch
order, plus the sequence value backing `RETURNING mot_id`. -/
structure DB where
  motorista : List Motorista
  grid_ext : List GridExtRow
  cad_veiculo : List CadVeiculoRow
  last_datastore : List LastRow
  next_mot_id : Nat
deriving DecidableEq, Repr

/-- One parsed extract line (the locals built at source lines 192-217). -/
structure Record where
  vei_id : Int
  vei_plc : String
  mot_nom : String
  placa_car : String
  mot_id : Option Int
  mot_tel : Option String
  mot_cnh : Option String
  mot_cpf : Option String
  mot_rua : Option String
  mot_num : Option String
  mot_bai : Option String
  mot_cid : Option String
  mot_uf : Option String
deriving DecidableEq, Repr

/-- The constant `cli_id = 269` (source line 217). -/
def cli_id_const : Nat := 269

/-- Embeds the `UPDATE motorista SET ... WHERE mot_id = %s` of lines
229-237: full overwrite of the mutable fields, `mot_mat` untouched. -/
def updateMotorista (db : DB) (rec : Record) (id : Nat) : DB :=
  { db with motorista := db.motorista.map (fun m =>
      if m.mot_id = id then
        { m with cli_id := cli_id_const, mot_nom := rec.mot_nom,
                 mot_tel := rec.mot_tel, mot_cnh := rec.mot_cnh,
                 mot_cpf := rec.mot_cpf, mot_rua := rec.mot_rua,
                 mot_num := rec.mot_num, mot_bai := rec.mot_bai,
                 mot_cid := rec.mot_cid, mot_uf := rec.mot_uf }
      else m) }

/-- Embeds the `INSERT INTO motorista ... RETURNING mot_id` of lines
240-248: a fresh row with `mot_mat` absent; returns the generated id. -/
def insertMotorista (db : DB) (rec : Record) : DB × Nat :=
  ({ db with
      motorista := db.motorista ++
        [⟨db.next_mot_id, cli_id_const, rec.mot_nom, rec.mot_tel, rec.mot_cnh,
          rec.mot_cpf, rec.mot_rua, rec.mot_num, rec.mot_bai, rec.mot_cid,
          rec.mot_uf, none⟩],
      next_mot_id := db.next_mot_id + 1 },
    db.next_mot_id)

/-- Embeds lines 225-249: resolve the driver, then update or insert.
the Python `if existing_mot_id:` treats the integer `0` as false, hence the
explicit `id ≠ 0` test. -/
def driverUpsert (db : DB) (rec : Record) : DB × Nat :=
  match find_motorista db.motorista rec.mot_nom rec.mot_cpf with
  | some id => if id ≠ 0 then (updateMotorista db rec id, id) else insertMotorista db rec
  | none => insertMotorista db rec

/-- Embeds the `UPDATE grid_ext` of lines 251-258: affects exactly the rows
whose `vei_id` matches; zero matching rows only produce a warning log. -/
def updateGridExt (db : DB) (rec : Record) (motId : Nat) : DB :=
  { db with grid_ext := db.grid_ext.map (fun r =>
      if r.vei_id = rec.vei_id then
        { r with placa_car := rec.placa_car, mot_nom := rec.mot_nom,
                 mot_id := some motId }
      else r) }

/-- Embeds the `UPDATE cad_veiculo` of lines 264-271. -/
def updateCadVeiculo (db : DB) (rec : Record) : DB :=
  { db with cad_veiculo := db.cad_veiculo.map (fun r =>
      if r.vei_id = rec.vei_id then { r with vei_plc := rec.vei_plc } else r) }

/-- Embeds the `UPDATE last_datastore` of lines 274-281 (the watermark
touch `SET vei_id = %s WHERE vei_id = %s`). -/
def updateLastDatastore (db : DB) (rec : Record) : DB :=
  { db with last_datastore := db.last_datastore.map (fun r =>
      if r.vei_id = rec.vei_id then { r with vei_id := rec.vei_id } else r) }

/-- Exception injection for the four write steps of the transaction of one line
(driver upsert, `grid_ext` update, `cad_veiculo` update, `last_datastore`
update): a `true` flag means that `cursor.execute` raises. -/
structure Faults where
  failDriver : Bool
  failGridExt : Bool
  failCadVeiculo : Bool
  failLastDatastore : Bool
deriving DecidableEq, Repr

/-- The fault-free run: no step raises. -/
def noFaults : Faults :=
  ⟨false, false, false, false⟩

/-- Embeds the `BEGIN; ... COMMIT;` body of lines 223-285 as a function on
a working copy of the store: `none` models an exception escaping one of
the write steps before `COMMIT`. -/
def runTransaction (db : DB) (rec : Record) (f : Faults) : Option DB :=
  if f.failDriver then none else
  let d1 := driverUpsert db rec
  if f.failGridExt then none else
  let db2 := updateGridExt d1.1 rec d1.2
  if f.failCadVeiculo then none else
  let db3 := updateCadVeiculo db2 rec
  if f.failLastDatastore then none else
  some (updateLastDatastore db3 rec)

/-- Embeds the `try ... except: ROLLBACK` of lines 222-289: on success the
working store is committed; on any exception it is discarded and the
incoming store kept (the Boolean reports whether the line committed). -/
def processRecord (db : DB) (rec : Record) (f : Faults) : DB × Bool :=
  match runTransaction db rec f with
  | some db2 => (db2, true)
  | none => (db, false)

/-- Python `int(...)` on a character list: optional surrounding
whitespace, optional sign, at least one digit. -/
def pyToIntL (l : List Char) : Option Int :=
  match pyStripL l with
  | '-' :: rest => if pyIsDigitL rest then some (-(digitsToNat rest : Int)) else none
  | '+' :: rest => if pyIsDigitL rest then some ((digitsToNat rest : Int)) else none
  | t => if pyIsDigitL t then some ((digitsToNat t : Int)) else none

/-- Outcome of parsing one raw line (lines 185-217): wrong column count,
unparseable vehicle identifier, or a typed record. -/
inductive ParseResult where
  | layoutError (ncols : Nat)
  | identityError
  | ok (rec : Record)
deriving DecidableEq, Repr

/-- The typed record built from a line with enough columns and a numeric
vehicle identifier (locals of lines 192-217, including the
`mot_id == 999999` sentinel normalization of line 214). -/
def parsedRecord (line : String) (vei_id : Int) : Record :=
  let data := pySplit ';' (pyStripL line.data)
  let d4 := data.getD 4 []
  let d6 := data.getD 6 []
  let mot_id_raw : Option Int :=
    if pyIsDigitL d6 then some ((digitsToNat d6 : Nat) : Int) else none
  { vei_id := vei_id
    vei_plc := String.mk (pyStripL (data.getD 1 []))
    mot_nom := if d4 ≠ [] ∧ pyStripL d4 ≠ "EM DEFINICAO".data
               then String.mk (pyStripL d4) else "EM DEFINICAO"
    placa_car := String.mk (pyStripL (data.getD 5 []))
    mot_id := if mot_id_raw = some 999999 then none else mot_id_raw
    mot_tel := if data.getD 7 [] ≠ [] ∧ pyStripL (data.getD 7 []) ≠ []
               then some (String.mk (pyStripL (data.getD 7 []))) else none
    mot_cnh := if data.getD 9 [] ≠ [] ∧ pyStripL (data.getD 9 []) ≠ []
               then some (String.mk (pyStripL (data.getD 9 []))) else none
    mot_cpf := if data.getD 10 [] ≠ []
               then formatar_cpf (String.mk (data.getD 10 [])) else none
    mot_rua := if data.getD 12 [] ≠ []
               then some (String.mk (pyStripL (data.getD 12 []))) else none
    mot_num := if data.getD 13 [] ≠ []
               then some (String.mk (pyStripL (data.getD 13 []))) else none
    mot_bai := if 14 < data.length ∧ data.getD 14 [] ≠ []
               then some (String.mk (pyStripL (data.getD 14 []))) else none
    mot_cid := if 15 < data.length ∧ data.getD 15 [] ≠ []
               then some (String.mk (pyStripL ((data.getD 15 []).take 25))) else none
    mot_uf := if 16 < data.length ∧ data.getD 16 [] ≠ []
               then some (String.mk (pyStripL (data.getD 16 []))) else none }

/-- Embeds the per-line field handling of lines 185-217: strip the line,
split on the fixed delimiter, reject fewer than 17 columns as a layout
error, reject a non-numeric vehicle identifier, and otherwise build the
typed record. -/
def parseRecord (line : String) : ParseResult :=
  let data := pySplit ';' (pyStripL line.data)
  if data.length < 17 then .layoutError data.length
  else
    match pyToIntL (data.getD 0 []) with
    | none => .identityError
    | some vei_id => .ok (parsedRecord line vei_id)

/-- Per-line outcome recorded by the batch loop. -/
inductive LineOutcome where
  | layoutError
  | identityError
  | committed
  | rolledBack
deriving DecidableEq, Repr

/-- One iteration of the `for line_number, line in enumerate(...)` loop
(lines 185-291): layout and identity rejections skip the line without
touching the store; otherwise the transactional unit runs. -/
def processLine (db : DB) (line : String) (f : Faults) : DB × LineOutcome :=
  match parseRecord line with
  | .layoutError _ => (db, .layoutError)
  | .identityError => (db, .identityError)
  | .ok rec =>
    match runTransaction db rec f with
    | some db2 => (db2, .committed)
    | none => (db, .rolledBack)

/-- Embeds the batch loop of `process_and_insert_data` (lines 184-294):
each line of the decoded file is processed in input order against the
store state left by its predecessors, paired here with the fault
injection for the transaction of that line. -/
def process_and_insert_data (db : DB) (lines : List (String × Faults)) :
    DB × List LineOutcome :=
  match lines with
  | [] => (db, [])
  | lf :: rest =>
    let r := processLine db lf.1 lf.2
    let rr := process_and_insert_data r.1 rest
    (rr.1, r.2 :: rr.2)

/-- The parsed driver name of an `ok` parse, `none` on a rejection. -/
def parsedNameOf : ParseResult → Option String
  | .ok r => some r.mot_nom
  | _ => none

/-- A decimal digit is not whitespace. -/
theorem digit_not_whitespace (c : Char) (h : c.isDigit = true) :
    c.isWhitespace = false := by
  by_contra hws
  rw [Bool.not_eq_false] at hws
  simp only [Char.isWhitespace, Bool.or_eq_true, decide_eq_true_eq] at hws
  rcases hws with ((h1 | h1) | h1) | h1 <;> subst h1 <;> exact absurd h (by decide)

/-- A list containing a non-whitespace character does not strip to `[]`. -/
theorem pyStripL_ne_nil (l : List Char) (c : Char) (hc : c ∈ l)
    (hw : c.isWhitespace = false) : pyStripL l ≠ [] := by
  intro h
  unfold pyStripL at h
  rw [List.reverse_eq_nil_iff, List.dropWhile_eq_nil_iff] at h
  have hall : ∀ x ∈ l, x.isWhitespace = true := by
    intro x hx
    rcases List.mem_append.mp
        ((List.takeWhile_append_dropWhile Char.isWhitespace l) ▸ hx) with h1 | h1
    · exact List.mem_takeWhile_imp h1
    · exact h x (List.mem_reverse.mpr h1)
  rw [hall c hc] at hw
  exact Bool.noConfusion hw

/-- Filtering the canonical form back through the digit filter recovers the
11 digits. -/
theorem cpfFormat_filter (d : List Char) (h : ∀ c ∈ d, c.isDigit = true) :
    (cpfFormat d).filter Char.isDigit = d := by
  have hdot : Char.isDigit '.' = false := by decide
  have hdash : Char.isDigit '-' = false := by decide
  have f1 : (d.take 3).filter Char.isDigit = d.take 3 :=
    List.filter_eq_self.mpr (fun c hc => h c (List.mem_of_mem_take hc))
  have f2 : ((d.drop 3).take 3).filter Char.isDigit = (d.drop 3).take 3 :=
    List.filter_eq_self.mpr
      (fun c hc => h c (List.mem_of_mem_drop (List.mem_of_mem_take hc)))
  have f3 : ((d.drop 6).take 3).filter Char.isDigit = (d.drop 6).take 3 :=
    List.filter_eq_self.mpr
      (fun c hc => h c (List.mem_of_mem_drop (List.mem_of_mem_take hc)))
  have f4 : (d.drop 9).filter Char.isDigit = d.drop 9 :=
    List.filter_eq_self.mpr (fun c hc => h c (List.mem_of_mem_drop hc))
  have e1 : (d.drop 6).take 3 ++ d.drop 9 = d.drop 6 := by
    have : d.drop 9 = (d.drop 6).drop 3 := by rw [List.drop_drop]
    rw [this, List.take_append_drop]
  have e2 : (d.drop 3).take 3 ++ d.drop 6 = d.drop 3 := by
    have : d.drop 6 = (d.drop 3).drop 3 := by rw [List.drop_drop]
    rw [this, List.take_append_drop]
  have e3 : d.take 3 ++ d.drop 3 = d := List.take_append_drop 3 d
  simp only [cpfFormat, List.filter_append, List.filter_cons, hdot, hdash,
    Bool.false_eq_true, if_false, f1, f2, f3, f4]
  rw [e1, e2, e3]

/-- Whenever exactly 11 digits remain, `formatar_cpf` succeeds with the
canonical form. -/
theorem formatar_cpf_of_eleven (s : String)
    (h : (s.data.filter Char.isDigit).length = 11) :
    formatar_cpf s = some (String.mk (cpfFormat (s.data.filter Char.isDigit))) := by
  have hne : s.data.filter Char.isDigit ≠ [] := by
    intro h0
    rw [h0] at h
    simp at h
  obtain ⟨c, hc⟩ := List.exists_mem_of_ne_nil _ hne
  have hcd : c.isDigit = true := (List.mem_filter.mp hc).2
  have hcs : c ∈ s.data := (List.mem_filter.mp hc).1
  have h1 : s.data ≠ [] := fun h0 => by rw [h0] at hcs; exact List.not_mem_nil c hcs
  have h2 : pyStripL s.data ≠ [] :=
    pyStripL_ne_nil _ c hcs (digit_not_whitespace c hcd)
  unfold formatar_cpf
  rw [if_neg (not_or.mpr ⟨h1, h2⟩), if_pos h]

/-- Claim C7: national-ID normalization yields the canonical
`DDD.DDD.DDD-DD` form exactly when 11 digits remain and `none` otherwise;
normalizing an already-formatted valid ID is idempotent, and a non-11-digit
input never yields a partial form. -/
theorem cpf_normalization (s : String) :
    ((s.data.filter Char.isDigit).length = 11 →
        formatar_cpf s = some (String.mk (cpfFormat (s.data.filter Char.isDigit)))) ∧
    ((s.data.filter Char.isDigit).length ≠ 11 → formatar_cpf s = none) ∧
    (∀ out, formatar_cpf s = some out → formatar_cpf out = some out) := by
  refine ⟨formatar_cpf_of_eleven s, ?_, ?_⟩
  · intro h
    by_cases hb : (s.data = [] ∨ pyStripL s.data = [])
    · unfold formatar_cpf
      rw [if_pos hb]
    · unfold formatar_cpf
      rw [if_neg hb, if_neg h]
  · intro out hout
    by_cases hb : (s.data = [] ∨ pyStripL s.data = [])
    · unfold formatar_cpf at hout
      rw [if_pos hb] at hout
      exact Option.noConfusion hout
    · unfold formatar_cpf at hout
      rw [if_neg hb] at hout
      by_cases hlen : (s.data.filter Char.isDigit).length = 11
      · rw [if_pos hlen] at hout
        have hout' : String.mk (cpfFormat (s.data.filter Char.isDigit)) = out :=
          Option.some.inj hout
        subst hout'
        have hdall : ∀ c ∈ s.data.filter Char.isDigit, c.isDigit = true :=
          fun c hc => (List.mem_filter.mp hc).2
        have hfe : (cpfFormat (s.data.filter Char.isDigit)).filter Char.isDigit
            = s.data.filter Char.isDigit := cpfFormat_filter _ hdall
        have hkey := formatar_cpf_of_eleven
          (String.mk (cpfFormat (s.data.filter Char.isDigit)))
          (by
            show ((cpfFormat (s.data.filter Char.isDigit)).filter Char.isDigit).length = 11
            rw [hfe]
            exact hlen)
        rw [show (String.mk (cpfFormat (s.data.filter Char.isDigit))).data.filter Char.isDigit
              = s.data.filter Char.isDigit from hfe] at hkey
        exact hkey
      · rw [if_neg hlen] at hout
        exact Option.noConfusion hout

/-- Witness for C7 at a concrete already-canonical 11-digit ID. -/
theorem cpf_normalization_witness :
    formatar_cpf "529.982.247-25" = some "529.982.247-25" := by
  have h := (cpf_normalization "529.982.247-25").1 (by decide)
  exact h.trans (by decide)

/-- Claim C3: when a canonical national ID is present and exactly one
stored driver carries it, resolution returns the identifier of that driver, for
every supplied name (the name-based tiers are never consulted). -/
theorem resolver_unique_cpf (table : List Motorista) (c : String)
    (m : Motorista)
    (h : table.filter (fun m => decide (m.mot_cpf = some c)) = [m]) :
    ∀ mot_nom : String, find_motorista table mot_nom (some c) = some m.mot_id := by
  intro mot_nom
  unfold find_motorista
  simp only [h, List.head?_cons]

/-- Witness for C3: a two-driver table where the second driver holds the
looked-up ID; an arbitrary name string is supplied. -/
theorem resolver_unique_cpf_witness :
    find_motorista
      [⟨7, 269, "ALICE", none, none, some "111.111.111-11", none, none, none, none, none, none⟩,
       ⟨9, 269, "BOB", none, none, some "222.222.222-22", none, none, none, none, none, none⟩]
      "any name at all" (some "222.222.222-22") = some 9 := by
  exact resolver_unique_cpf _ "222.222.222-22"
    ⟨9, 269, "BOB", none, none, some "222.222.222-22", none, none, none, none, none, none⟩
    (by decide) "any name at all"

/-- Counterexample to C4 as stated: two stored drivers share the canonical
ID `111.111.111-11`, yet the resolver immediately returns the first of
them by the ID tier instead of detecting the multiplicity. -/
theorem resolver_multi_cpf_cex :
    (([⟨1, 269, "ALPHA", none, none, some "111.111.111-11", none, none, none, none, none, none⟩,
       ⟨2, 269, "BETA", none, none, some "111.111.111-11", none, none, none, none, none, none⟩].filter
        (fun m : Motorista => decide (m.mot_cpf = some "111.111.111-11"))).length = 2) ∧
    find_motorista
      [⟨1, 269, "ALPHA", none, none, some "111.111.111-11", none, none, none, none, none, none⟩,
       ⟨2, 269, "BETA", none, none, some "111.111.111-11", none, none, none, none, none, none⟩]
      "GAMMA" (some "111.111.111-11") = some 1 := by
  exact ⟨by decide, by decide⟩

/-- Claim C4 amended: the ID tier returns a driver whenever at least one
stored driver carries the canonical ID, namely the first matching row in
fetch order — with several matching rows it still returns the first one
rather than detecting the multiplicity. -/
theorem resolver_cpf_first_match (table : List Motorista) (c : String)
    (m : Motorista) (rest : List Motorista)
    (h : table.filter (fun m => decide (m.mot_cpf = some c)) = m :: rest) :
    ∀ mot_nom : String, find_motorista table mot_nom (some c) = some m.mot_id := by
  intro mot_nom
  unfold find_motorista
  simp only [h, List.head?_cons]

/-- Witness for the amended C4: with two drivers sharing the ID, the first
first identifier is returned. -/
theorem resolver_cpf_first_match_witness :
    find_motorista
      [⟨1, 269, "ALPHA", none, none, some "111.111.111-11", none, none, none, none, none, none⟩,
       ⟨2, 269, "BETA", none, none, some "111.111.111-11", none, none, none, none, none, none⟩]
      "GAMMA" (some "111.111.111-11") = some 1 := by
  exact resolver_cpf_first_match _ "111.111.111-11"
    ⟨1, 269, "ALPHA", none, none, some "111.111.111-11", none, none, none, none, none, none⟩
    [⟨2, 269, "BETA", none, none, some "111.111.111-11", none, none, none, none, none, none⟩]
    (by decide) "GAMMA"

/-- Claim C2: with no usable national ID, no exact (case-insensitive) name
match, and two or more drivers matching the uppercased name by prefix or
substring, resolution returns `none` instead of picking a candidate. -/
theorem resolver_ambiguous_none (table : List Motorista) (mot_nom : String)
    (hexact : table.filter
      (fun m => decide (pyUpperL m.mot_nom.data = pyUpperL (pyStripL mot_nom.data))) = [])
    (hfuzzy : 2 ≤ (table.filter
      (fun m => likeStarts (pyUpperL (pyStripL mot_nom.data)) (pyUpperL m.mot_nom.data)
        || likeContains (pyUpperL (pyStripL mot_nom.data)) (pyUpperL m.mot_nom.data))).length) :
    find_motorista table mot_nom none = none := by
  have hne : ¬ ((table.filter
      (fun m => likeStarts (pyUpperL (pyStripL mot_nom.data)) (pyUpperL m.mot_nom.data)
        || likeContains (pyUpperL (pyStripL mot_nom.data)) (pyUpperL m.mot_nom.data))).length = 1) := by
    omega
  unfold find_motorista
  simp only [hexact, List.head?_nil, if_neg hne]

/-- Witness for C2: the name `JO` matches both `JOAO` and `JOSE` by prefix
but neither exactly, so resolution yields `none`. -/
theorem resolver_ambiguous_none_witness :
    find_motorista
      [⟨1, 269, "JOAO", none, none, none, none, none, none, none, none, none⟩,
       ⟨2, 269, "JOSE", none, none, none, none, none, none, none, none, none⟩]
      "JO" none = none := by
  exact resolver_ambiguous_none _ "JO" (by decide) (by decide)

/-- Claim C1: if any of the four write steps of the transaction of one line
raises, the whole unit rolls back — the resulting store is exactly the
incoming store, so in particular the driver insert/update from that line
does not survive a later failing vehicle-assignment step. -/
theorem transaction_rollback (db : DB) (rec : Record) (f : Faults)
    (h : f.failDriver = true ∨ f.failGridExt = true ∨
         f.failCadVeiculo = true ∨ f.failLastDatastore = true) :
    processRecord db rec f = (db, false) := by
  rcases f with ⟨fd, fg, fc, fl⟩
  cases fd <;> cases fg <;> cases fc <;> cases fl <;>
    simp_all [processRecord, runTransaction]

/-- Witness for C1: a failure injected at the `grid_ext` step leaves a
concrete one-driver store untouched even though the line would have
updated that driver. -/
theorem transaction_rollback_witness :
    processRecord
      ⟨[⟨1, 269, "ALICE", none, none, some "111.111.111-11", none, none, none, none, none, none⟩],
        [⟨5, "", "", none⟩], [⟨5, ""⟩], [⟨5⟩], 2⟩
      ⟨5, "ABC1234", "ALICE", "XYZ9876", none, none, none,
        some "111.111.111-11", none, none, none, none, none⟩
      ⟨false, true, false, false⟩
      = (⟨[⟨1, 269, "ALICE", none, none, some "111.111.111-11", none, none, none, none, none, none⟩],
          [⟨5, "", "", none⟩], [⟨5, ""⟩], [⟨5⟩], 2⟩, false) := by
  exact transaction_rollback _ _ _ (Or.inr (Or.inl rfl))

/-- The driver upsert never touches the vehicle tables. -/
theorem driverUpsert_grid_ext (db : DB) (rec : Record) :
    (driverUpsert db rec).1.grid_ext = db.grid_ext := by
  unfold driverUpsert updateMotorista insertMotorista
  cases find_motorista db.motorista rec.mot_nom rec.mot_cpf with
  | none => rfl
  | some id =>
    by_cases h : id ≠ 0 <;> simp [h]

/-- The driver upsert never touches `cad_veiculo`. -/
theorem driverUpsert_cad_veiculo (db : DB) (rec : Record) :
    (driverUpsert db rec).1.cad_veiculo = db.cad_veiculo := by
  unfold driverUpsert updateMotorista insertMotorista
  cases find_motorista db.motorista rec.mot_nom rec.mot_cpf with
  | none => rfl
  | some id =>
    by_cases h : id ≠ 0 <;> simp [h]

/-- Claim C8: when the vehicle identifier of the record matches no row of
`grid_ext` and no row of `cad_veiculo`, the zero-row updates are not
errors: the fault-free transaction still commits, the driver insert/update
from the line persists in `motorista`, and the two vehicle tables are left
as they were. -/
theorem zero_row_update_commits (db : DB) (rec : Record)
    (hg : ∀ r ∈ db.grid_ext, r.vei_id ≠ rec.vei_id)
    (hc : ∀ r ∈ db.cad_veiculo, r.vei_id ≠ rec.vei_id) :
    (processRecord db rec noFaults).2 = true ∧
    (processRecord db rec noFaults).1.motorista = (driverUpsert db rec).1.motorista ∧
    (processRecord db rec noFaults).1.grid_ext = db.grid_ext ∧
    (processRecord db rec noFaults).1.cad_veiculo = db.cad_veiculo := by
  have hrun : processRecord db rec noFaults =
      (updateLastDatastore
        (updateCadVeiculo
          (updateGridExt (driverUpsert db rec).1 rec (driverUpsert db rec).2) rec) rec,
       true) := by
    simp [processRecord, runTransaction, noFaults]
  rw [hrun]
  refine ⟨rfl, ?_, ?_, ?_⟩
  · simp [updateLastDatastore, updateCadVeiculo, updateGridExt]
  · simp only [updateLastDatastore, updateCadVeiculo, updateGridExt,
      driverUpsert_grid_ext]
    conv_rhs => rw [← List.map_id db.grid_ext]
    apply List.map_congr_left
    intro r hr
    simp [hg r hr]
  · simp only [updateLastDatastore, updateCadVeiculo, updateGridExt,
      driverUpsert_cad_veiculo]
    conv_rhs => rw [← List.map_id db.cad_veiculo]
    apply List.map_congr_left
    intro r hr
    simp [hc r hr]

/-- Witness for C8: a store whose vehicle tables hold only vehicle 99;
processing a record for vehicle 5 commits and inserts the new driver while
leaving both vehicle tables unchanged. -/
theorem zero_row_update_commits_witness :
    ((processRecord
        ⟨[], [⟨99, "", "", none⟩], [⟨99, ""⟩], [⟨99⟩], 1⟩
        ⟨5, "ABC1234", "CARLOS", "XYZ9876", none, none, none, none, none,
          none, none, none, none⟩ noFaults).2 = true) ∧
    ((processRecord
        ⟨[], [⟨99, "", "", none⟩], [⟨99, ""⟩], [⟨99⟩], 1⟩
        ⟨5, "ABC1234", "CARLOS", "XYZ9876", none, none, none, none, none,
          none, none, none, none⟩ noFaults).1.grid_ext = [⟨99, "", "", none⟩]) := by
  have h := zero_row_update_commits
    ⟨[], [⟨99, "", "", none⟩], [⟨99, ""⟩], [⟨99⟩], 1⟩
    ⟨5, "ABC1234", "CARLOS", "XYZ9876", none, none, none, none, none,
      none, none, none, none⟩
    (by decide) (by decide)
  exact ⟨h.1, h.2.2.1⟩

/-- A line with enough columns and a numeric vehicle identifier parses to
the typed record. -/
theorem parseRecord_ok (line : String) (v : Int)
    (h17 : ¬ (pySplit ';' (pyStripL line.data)).length < 17)
    (hv : pyToIntL ((pySplit ';' (pyStripL line.data)).getD 0 []) = some v) :
    parseRecord line = .ok (parsedRecord line v) := by
  simp only [List.getD_eq_getElem?_getD] at hv
  unfold parseRecord
  simp [h17, hv]

/-- Claim C6: a line that splits into fewer than 17 fields is rejected as
a layout error and leaves the store completely untouched. -/
theorem short_line_rejected (db : DB) (line : String) (f : Faults)
    (h : (pySplit ';' (pyStripL line.data)).length < 17) :
    processLine db line f = (db, .layoutError) := by
  unfold processLine parseRecord
  simp [h]

/-- Witness for C6: a ten-field line is skipped and the store kept. -/
theorem short_line_rejected_witness :
    processLine ⟨[], [], [], [], 1⟩ "1;a;b;c;d;e;f;g;h;i" noFaults
      = (⟨[], [], [], [], 1⟩, .layoutError) := by
  exact short_line_rejected _ _ _ (by decide)

/-- Claim C9: on a line with at least 17 fields, a non-numeric vehicle
identifier rejects the line as an identity-field error, while a
non-numeric or blank driver reference code, and likewise the sentinel
999999, merely leave the parsed reference absent without rejecting the
line; the transactional unit never reads that parsed reference, so
resolution proceeds by name/ID only. -/
theorem identity_field_rules (db : DB) (f : Faults) (line : String)
    (h17 : ¬ (pySplit ';' (pyStripL line.data)).length < 17) :
    (pyToIntL ((pySplit ';' (pyStripL line.data)).getD 0 []) = none →
        processLine db line f = (db, .identityError)) ∧
    (∀ v : Int, pyToIntL ((pySplit ';' (pyStripL line.data)).getD 0 []) = some v →
      parseRecord line = .ok (parsedRecord line v) ∧
      (pyIsDigitL ((pySplit ';' (pyStripL line.data)).getD 6 []) = false →
        (parsedRecord line v).mot_id = none) ∧
      (digitsToNat ((pySplit ';' (pyStripL line.data)).getD 6 []) = 999999 →
        (parsedRecord line v).mot_id = none) ∧
      (∀ (db0 : DB) (f0 : Faults) (r : Record),
        runTransaction db0 r f0 = runTransaction db0 { r with mot_id := none } f0)) := by
  constructor
  · intro h0
    simp only [List.getD_eq_getElem?_getD] at h0
    unfold processLine parseRecord
    simp [h17, h0]
  · intro v hv
    refine ⟨parseRecord_ok line v h17 hv, ?_, ?_, ?_⟩
    · intro hd
      simp only [List.getD_eq_getElem?_getD] at hd
      unfold parsedRecord
      simp [hd]
    · intro hnum
      simp only [List.getD_eq_getElem?_getD] at hnum
      by_cases hdig : pyIsDigitL (((pySplit ';' (pyStripL line.data))[6]?).getD []) = true
      · unfold parsedRecord
        simp [hdig, hnum]
      · unfold parsedRecord
        simp [hdig]
    · intro db0 f0 r
      rfl

/-- Witness for C9: a 17-field line carrying the sentinel driver
reference 999999 parses with an absent reference. -/
theorem identity_field_rules_witness :
    (parsedRecord "5;;;;;;999999;;;;;;;;;;" 5).mot_id = none := by
  exact (((identity_field_rules ⟨[], [], [], [], 1⟩ noFaults
    "5;;;;;;999999;;;;;;;;;;" (by decide)).2 5 (by decide)).2.2.1 (by decide))

/-- Processing a concatenation of batches chains the store state and
concatenates the per-line outcomes. -/
theorem process_append (db : DB) (xs ys : List (String × Faults)) :
    process_and_insert_data db (xs ++ ys) =
      ((process_and_insert_data (process_and_insert_data db xs).1 ys).1,
        (process_and_insert_data db xs).2 ++
          (process_and_insert_data (process_and_insert_data db xs).1 ys).2) := by
  induction xs generalizing db with
  | nil => simp [process_and_insert_data]
  | cons lf rest ih => simp [process_and_insert_data, ih]

/-- Claim C5: no line-level rejection or transaction failure aborts the
batch — every line of the input yields exactly one outcome, and for any
split of the input around a line, that line and all the lines after it
are processed in input order against the state left by the prefix,
whatever failures the prefix had. -/
theorem batch_never_aborts (db : DB) (lines : List (String × Faults)) :
    ((process_and_insert_data db lines).2.length = lines.length) ∧
    (∀ pre l f post, lines = pre ++ (l, f) :: post →
      (process_and_insert_data db lines).2 =
        (process_and_insert_data db pre).2 ++
          (processLine (process_and_insert_data db pre).1 l f).2 ::
          (process_and_insert_data
            (processLine (process_and_insert_data db pre).1 l f).1 post).2) := by
  constructor
  · induction lines generalizing db with
    | nil => simp [process_and_insert_data]
    | cons lf rest ih => simp [process_and_insert_data, ih]
  · intro pre l f post hsplit
    subst hsplit
    rw [process_append]
    simp [process_and_insert_data]

/-- Witness for C5: a two-line batch whose first line is a layout
rejection still processes the second line against the unchanged store. -/
theorem batch_never_aborts_witness :
    (process_and_insert_data ⟨[], [], [], [], 1⟩
        [("bad", noFaults), ("1;a;b;c;d;e;f;g;h;i", noFaults)]).2 =
      (process_and_insert_data ⟨[], [], [], [], 1⟩ [("bad", noFaults)]).2 ++
        (processLine (process_and_insert_data ⟨[], [], [], [], 1⟩
            [("bad", noFaults)]).1 "1;a;b;c;d;e;f;g;h;i" noFaults).2 ::
        (process_and_insert_data
          (processLine (process_and_insert_data ⟨[], [], [], [], 1⟩
              [("bad", noFaults)]).1 "1;a;b;c;d;e;f;g;h;i" noFaults).1 []).2 := by
  exact (batch_never_aborts ⟨[], [], [], [], 1⟩
    [("bad", noFaults), ("1;a;b;c;d;e;f;g;h;i", noFaults)]).2
    [("bad", noFaults)] "1;a;b;c;d;e;f;g;h;i" noFaults [] rfl

/-- Counterexample to C10 as stated: a 17-field line whose driver-name
field is the single space `" "` (whitespace-only) parses to the empty
name, not to the placeholder `EM DEFINICAO`. -/
theorem whitespace_name_cex :
    ((pySplit ';' (pyStripL "1;;;; ;;;;;;;;;;;;".data)).length = 17) ∧
    ((pySplit ';' (pyStripL "1;;;; ;;;;;;;;;;;;".data)).getD 4 [] = [' ']) ∧
    (parsedNameOf (parseRecord "1;;;; ;;;;;;;;;;;;") = some "") ∧
    (("" : String) ≠ "EM DEFINICAO") := by
  refine ⟨by decide, by decide, by decide, by decide⟩

/-- Claim C10 amended: on a line with at least 17 fields and a numeric
vehicle identifier, an empty driver-name field parses to the placeholder
`EM DEFINICAO`; a name field stripping to the placeholder is preserved as
the placeholder; but any other nonempty field — including a
whitespace-only one — parses to its stripped value (the empty name for a
whitespace-only field), and the line is not rejected. -/
theorem name_field_rule (line : String) (v : Int)
    (h17 : ¬ (pySplit ';' (pyStripL line.data)).length < 17)
    (hv : pyToIntL ((pySplit ';' (pyStripL line.data)).getD 0 []) = some v) :
    parseRecord line = .ok (parsedRecord line v) ∧
    ((pySplit ';' (pyStripL line.data)).getD 4 [] = [] →
      (parsedRecord line v).mot_nom = "EM DEFINICAO") ∧
    (pyStripL ((pySplit ';' (pyStripL line.data)).getD 4 []) = "EM DEFINICAO".data →
      (parsedRecord line v).mot_nom = "EM DEFINICAO") ∧
    ((pySplit ';' (pyStripL line.data)).getD 4 [] ≠ [] →
      pyStripL ((pySplit ';' (pyStripL line.data)).getD 4 []) ≠ "EM DEFINICAO".data →
      (parsedRecord line v).mot_nom =
        String.mk (pyStripL ((pySplit ';' (pyStripL line.data)).getD 4 []))) := by
  refine ⟨parseRecord_ok line v h17 hv, ?_, ?_, ?_⟩
  · intro h4
    simp only [List.getD_eq_getElem?_getD] at h4
    unfold parsedRecord
    simp [h4]
  · intro hph
    simp only [List.getD_eq_getElem?_getD] at hph
    unfold parsedRecord
    simp [hph]
  · intro h4 hph
    simp only [List.getD_eq_getElem?_getD] at h4 hph
    unfold parsedRecord
    simp [h4, hph]

/-- Witness for the amended C10: an empty name field yields the
placeholder on a concrete line. -/
theorem name_field_rule_witness :
    (parsedRecord "1;;;;;;;;;;;;;;;;" 1).mot_nom = "EM DEFINICAO" := by
  exact (name_field_rule "1;;;;;;;;;;;;;;;;" 1 (by decide) (by decide)).2.1 (by decide)

end Integracao
